import Mathlib

/-!
Verification development for the Humor Project gallery app
(Week1/hello-world). The repository has two near-duplicate page
components: `app/page.tsx` (boolean like variant, local `likedCaptions`
set) and the vote variant shown in `SETUP_README.md` (signed ±1 votes in
`userVotes`/`voteCounts` maps backed by the `caption_votes` table).

The shallow embedding below models:
 * the record types `Image`, `Caption`, `CaptionVote` (TS interfaces);
 * JS `Map<string, number>` as an association list `List (String × Int)`
   with `mapGet`/`mapSet`/`mapDelete` mirroring `get`/`set`/`delete`
   (set updates in place when the key exists, otherwise appends;
   a JS map never holds two entries with the same key);
 * JS `Set<string>` as a duplicate-free `List String` with
   `setHas`/`setAdd`/`setDelete` mirroring `has`/`add`/`delete`;
 * the `fetchData` aggregation (vote counting, user-vote map, the
   image/caption join and the sort by caption count);
 * the event handlers `handleVote` and `toggleLike`.  `handleVote` is a
   function of the local state, the logged-in user, the clicked caption
   and vote value, and the success/failure of the single backend call it
   issues; its result records the new local state, the list of backend
   requests issued, and whether an alert was surfaced.
-/

namespace HumorProject

/-- TS interface `Image` (page.tsx:8, SETUP_README variant). -/
structure Image where
  id : String
  url : String
  created_at : Option String
  created_at_utc : Option String
deriving Repr, DecidableEq

/-- TS interface `Caption` (page.tsx:15): text is one of three optional fields. -/
structure Caption where
  id : String
  image_id : String
  text : Option String
  caption_text : Option String
  content : Option String
  profile_id : String
  created_at : Option String
  created_at_utc : Option String
deriving Repr, DecidableEq

/-- TS interface `CaptionVote` (SETUP_README variant). -/
structure CaptionVote where
  id : String
  caption_id : String
  profile_id : String
  vote_value : Int
deriving Repr, DecidableEq

/-- TS interface `ImageWithCaptions extends Image`: an image together with
its attached caption list. -/
structure ImageWithCaptions where
  image : Image
  captions : List Caption
deriving Repr, DecidableEq

/-! JS `Map<string, number>` modelled as an association list. -/

/-- JS `Map.get`: the value stored at the (unique) entry with this key. -/
def mapGet (m : List (String × Int)) (k : String) : Option Int :=
  match m with
  | [] => none
  | p :: rest => if p.1 == k then some p.2 else mapGet rest k

/-- JS `Map.set`: overwrite the entry with this key in place, or append a
new entry at the end when the key is absent. -/
def mapSet (m : List (String × Int)) (k : String) (v : Int) : List (String × Int) :=
  match m with
  | [] => [(k, v)]
  | p :: rest => if p.1 == k then (k, v) :: rest else p :: mapSet rest k v

/-- JS `Map.delete`: remove the entry with this key. -/
def mapDelete (m : List (String × Int)) (k : String) : List (String × Int) :=
  m.filter (fun p => !(p.1 == k))

/-- The JS idiom `m.get(k) || 0` used throughout the vote code: an absent
entry counts as 0 (and a stored 0, though falsy in JS, also yields 0). -/
def mapGetD (m : List (String × Int)) (k : String) (d : Int) : Int :=
  (mapGet m k).getD d

/-! JS `Set<string>` modelled as a duplicate-free list. -/

/-- JS `Set.has`. -/
def setHas (s : List String) (x : String) : Bool :=
  s.contains x

/-- JS `Set.add`: a set never holds duplicates, so adding a present
element is a no-op; a new element is appended. -/
def setAdd (s : List String) (x : String) : List String :=
  if s.contains x then s else s ++ [x]

/-- JS `Set.delete`: remove the element. -/
def setDelete (s : List String) (x : String) : List String :=
  s.filter (fun y => !(y == x))

/-! The fetchData aggregation (SETUP_README variant, lines 126-208). -/

/-- Model of the backend query modifier `.limit(n)`: the backend returns
at most the first `n` rows of the table (page.tsx:66 uses `.limit(20)`). -/
def limitQuery (rows : List Image) (n : Nat) : List Image :=
  rows.take n

/-- Vote-count aggregation from fetchData (SETUP_README lines 160-168):
fold over all fetched votes, adding each `vote_value` into the count for
its `caption_id` (`counts.get(...) || 0` plus the value). -/
def computeVoteCounts (votes : List CaptionVote) : List (String × Int) :=
  votes.foldl
    (fun counts vote =>
      mapSet counts vote.caption_id (mapGetD counts vote.caption_id 0 + vote.vote_value))
    []

/-- The map of the current user's own votes (SETUP_README lines 180-187):
for each fetched vote row of this user, `votesMap.set(caption_id, vote_value)`. -/
def computeUserVotes (votes : List CaptionVote) : List (String × Int) :=
  votes.foldl (fun votesMap vote => mapSet votesMap vote.caption_id vote.vote_value) []

/-- The client-side join (page.tsx:90-93): every image is paired with the
captions whose `image_id` equals its `id`, kept in fetched order. -/
def combineImagesCaptions (images : List Image) (captions : List Caption) :
    List ImageWithCaptions :=
  images.map (fun image =>
    ⟨image, captions.filter (fun caption => caption.image_id == image.id)⟩)

/-- The sort `(a, b) => b.captions.length - a.captions.length`
(page.tsx:96): order by caption count, most captions first. -/
def sortByCaptionCount (l : List ImageWithCaptions) : List ImageWithCaptions :=
  l.mergeSort (fun a b => b.captions.length ≤ a.captions.length)

/-- The value stored into the `imagesWithCaptions` state by fetchData:
join of the (limited) image query with the caption query, sorted by
caption count. -/
def fetchImagesWithCaptions (dbImages : List Image) (dbCaptions : List Caption) :
    List ImageWithCaptions :=
  sortByCaptionCount (combineImagesCaptions (limitQuery dbImages 20) dbCaptions)

/-! The vote-variant event handler `handleVote` (SETUP_README lines 214-318). -/

/-- A backend mutation request against the `caption_votes` table, as
issued by `handleVote`: delete/update rows matching
`caption_id = c, profile_id = u`, or insert a new row. -/
inductive VoteAction where
  | deleteVote : (captionId : String) → (profileId : String) → VoteAction
  | updateVote : (captionId : String) → (profileId : String) → (value : Int) → VoteAction
  | insertVote : (captionId : String) → (profileId : String) → (value : Int) → VoteAction
deriving Repr, DecidableEq

/-- The local component state of the vote variant that its event handlers
can read or write (SETUP_README lines 98-105). -/
structure VoteAppState where
  imagesWithCaptions : List ImageWithCaptions
  selectedImage : Option ImageWithCaptions
  darkMode : Bool
  userVotes : List (String × Int)
  voteCounts : List (String × Int)
deriving Repr, DecidableEq

/-- Result of one `handleVote` call: the local state afterwards, the
backend requests issued (in order), and whether an alert was shown. -/
structure HandleVoteResult where
  state : VoteAppState
  actions : List VoteAction
  alerted : Bool
deriving Repr, DecidableEq

/-- `handleVote(captionId, voteValue)` (SETUP_README lines 214-318).
`user` is the logged-in user (`none` models a missing session: alert and
return).  `backendOk` is the outcome of the single backend call the
handler issues.  The three branches follow `currentVote = userVotes.get`:
same value → delete the row and drop the local entry; different recorded
value → update the row to the new value; no recorded vote → insert a new
row.  On a backend error each branch alerts and returns without touching
local state. -/
def handleVote (st : VoteAppState) (user : Option String) (captionId : String)
    (voteValue : Int) (backendOk : Bool) : HandleVoteResult :=
  match user with
  | none => ⟨st, [], true⟩
  | some uid =>
    match mapGet st.userVotes captionId with
    | some currentVote =>
      if currentVote = voteValue then
        let act := VoteAction.deleteVote captionId uid
        if backendOk then
          ⟨{ st with
              userVotes := mapDelete st.userVotes captionId,
              voteCounts := mapSet st.voteCounts captionId
                (mapGetD st.voteCounts captionId 0 - voteValue) },
            [act], false⟩
        else ⟨st, [act], true⟩
      else
        let act := VoteAction.updateVote captionId uid voteValue
        if backendOk then
          ⟨{ st with
              userVotes := mapSet st.userVotes captionId voteValue,
              voteCounts := mapSet st.voteCounts captionId
                (mapGetD st.voteCounts captionId 0 - currentVote + voteValue) },
            [act], false⟩
        else ⟨st, [act], true⟩
    | none =>
      let act := VoteAction.insertVote captionId uid voteValue
      if backendOk then
        ⟨{ st with
            userVotes := mapSet st.userVotes captionId voteValue,
            voteCounts := mapSet st.voteCounts captionId
              (mapGetD st.voteCounts captionId 0 + voteValue) },
          [act], false⟩
      else ⟨st, [act], true⟩

/-- `getUserVote` (SETUP_README lines 320-322). -/
def getUserVote (userVotes : List (String × Int)) (captionId : String) : Option Int :=
  mapGet userVotes captionId

/-- `getVoteCount` (SETUP_README lines 324-326): `voteCounts.get(captionId) || 0`. -/
def getVoteCount (voteCounts : List (String × Int)) (captionId : String) : Int :=
  mapGetD voteCounts captionId 0

/-! The like-variant handler `toggleLike` (page.tsx lines 116-126). -/

/-- `toggleLike(captionId)`: copy the set, delete the id when present,
add it when absent.  The second component lists the backend requests the
handler issues: its body touches only the local `likedCaptions` state and
performs no backend call. -/
def toggleLike (likedCaptions : List String) (captionId : String) :
    List String × List VoteAction :=
  (if setHas likedCaptions captionId
    then setDelete likedCaptions captionId
    else setAdd likedCaptions captionId,
   [])

/-- `isLiked` (page.tsx lines 128-130). -/
def isLiked (likedCaptions : List String) (captionId : String) : Bool :=
  setHas likedCaptions captionId

/-- `getCaptionText` (page.tsx lines 112-114):
`caption.text || caption.caption_text || caption.content || 'No text'`,
where a JS `||` skips an absent field and also an empty string (falsy). -/
def jsOrString (a : Option String) (b : String) : String :=
  match a with
  | some s => if s = "" then b else s
  | none => b

/-- The caption display text, as computed by the source. -/
def getCaptionText (c : Caption) : String :=
  jsOrString c.text (jsOrString c.caption_text (jsOrString c.content "No text"))

/-- Specification-side description of the caption text: the first of a
list of optional fields that is present and non-empty, if any. -/
def firstPresentNonEmpty : List (Option String) → Option String
  | [] => none
  | some s :: rest => if s = "" then firstPresentNonEmpty rest else some s
  | none :: rest => firstPresentNonEmpty rest

/-- Specification-side caption text: the first of the fields `text`,
`caption_text`, `content` that is present and non-empty, or the string
"No text" when all three are absent or empty.  To be compared with
`getCaptionText`, which is translated from the source. -/
def captionTextSpec (c : Caption) : String :=
  (firstPresentNonEmpty [c.text, c.caption_text, c.content]).getD "No text"

/-! Basic lemmas about the map and set models. -/

theorem mapGet_mapSet_self (m : List (String × Int)) (k : String) (v : Int) :
    mapGet (mapSet m k v) k = some v := by
  induction m with
  | nil => simp [mapGet, mapSet]
  | cons p rest ih =>
    by_cases h : p.1 = k
    · simp [mapGet, mapSet, h]
    · simp [mapGet, mapSet, h, ih]

theorem mapGet_mapSet_ne (m : List (String × Int)) (k k' : String) (v : Int)
    (h : k' ≠ k) : mapGet (mapSet m k v) k' = mapGet m k' := by
  induction m with
  | nil => simp [mapGet, mapSet, Ne.symm h]
  | cons p rest ih =>
    by_cases hp : p.1 = k
    · subst hp
      simp [mapGet, mapSet, Ne.symm h]
    · by_cases hp2 : p.1 = k'
      · simp [mapGet, mapSet, hp, hp2, h]
      · simp [mapGet, mapSet, hp, hp2, ih]

theorem mapGet_mapDelete_self (m : List (String × Int)) (k : String) :
    mapGet (mapDelete m k) k = none := by
  induction m with
  | nil => simp [mapGet, mapDelete]
  | cons p rest ih =>
    by_cases h : p.1 = k
    · simpa [mapDelete, h] using ih
    · simpa [mapDelete, mapGet, h] using ih

theorem mapGet_mapDelete_ne (m : List (String × Int)) (k k' : String)
    (h : k' ≠ k) : mapGet (mapDelete m k) k' = mapGet m k' := by
  induction m with
  | nil => simp [mapDelete]
  | cons p rest ih =>
    by_cases hp : p.1 = k
    · subst hp
      simpa [mapDelete, mapGet, Ne.symm h] using ih
    · by_cases hp2 : p.1 = k'
      · simp [mapDelete, mapGet, hp, hp2, h]
      · simpa [mapDelete, mapGet, hp, hp2] using ih

theorem mapGetD_mapSet_self (m : List (String × Int)) (k : String) (v d : Int) :
    mapGetD (mapSet m k v) k d = v := by
  simp [mapGetD, mapGet_mapSet_self]

theorem mapGetD_mapSet_ne (m : List (String × Int)) (k k' : String) (v d : Int)
    (h : k' ≠ k) : mapGetD (mapSet m k v) k' d = mapGetD m k' d := by
  simp [mapGetD, mapGet_mapSet_ne m k k' v h]

theorem keys_mapSet (m : List (String × Int)) (k : String) (v : Int) :
    (mapSet m k v).map Prod.fst =
      if k ∈ m.map Prod.fst then m.map Prod.fst else m.map Prod.fst ++ [k] := by
  induction m with
  | nil => simp [mapSet]
  | cons p rest ih =>
    by_cases hp : p.1 = k
    · simp [mapSet, hp]
    · by_cases hm : k ∈ rest.map Prod.fst
      · simp [mapSet, hp, hm, Ne.symm hp, ih]
      · simp [mapSet, hp, hm, Ne.symm hp, ih]

theorem nodup_keys_mapSet (m : List (String × Int)) (k : String) (v : Int)
    (h : (m.map Prod.fst).Nodup) : ((mapSet m k v).map Prod.fst).Nodup := by
  rw [keys_mapSet]
  by_cases hm : k ∈ m.map Prod.fst
  · simpa [hm] using h
  · simp [hm, List.nodup_append, h]

theorem nodup_keys_mapDelete (m : List (String × Int)) (k : String)
    (h : (m.map Prod.fst).Nodup) : ((mapDelete m k).map Prod.fst).Nodup :=
  List.Nodup.sublist (List.Sublist.map Prod.fst (List.filter_sublist m)) h

theorem setHas_setDelete_self (s : List String) (x : String) :
    setHas (setDelete s x) x = false := by
  simp [setHas, setDelete, List.mem_filter]

theorem setHas_setAdd_self (s : List String) (x : String) :
    setHas (setAdd s x) x = true := by
  by_cases h : x ∈ s <;> simp [setHas, setAdd, h]

theorem setHas_setDelete_ne (s : List String) (x y : String) (h : y ≠ x) :
    setHas (setDelete s x) y = setHas s y := by
  simp [setHas, setDelete, List.mem_filter, h]

theorem setHas_setAdd_ne (s : List String) (x y : String) (h : y ≠ x) :
    setHas (setAdd s x) y = setHas s y := by
  by_cases hm : x ∈ s <;> simp [setHas, setAdd, hm, h]

/-! Helper lemmas for the fetchData aggregation. -/

theorem sortByCaptionCount_perm (l : List ImageWithCaptions) :
    (sortByCaptionCount l).Perm l :=
  List.mergeSort_perm l _

theorem sortByCaptionCount_sorted (l : List ImageWithCaptions) :
    (sortByCaptionCount l).Pairwise
      (fun a b => b.captions.length ≤ a.captions.length) := by
  have h := @List.sorted_mergeSort ImageWithCaptions
    (fun a b => decide (b.captions.length ≤ a.captions.length))
    (fun a b c h1 h2 => by
      simp only [decide_eq_true_eq] at *
      omega)
    (fun a b => by
      simp only [Bool.or_eq_true, decide_eq_true_eq]
      omega)
    l
  exact h.imp (fun hab => by simpa using hab)

theorem computeVoteCounts_go (votes : List CaptionVote) (init : List (String × Int))
    (c : String) :
    mapGetD (votes.foldl
      (fun counts vote =>
        mapSet counts vote.caption_id (mapGetD counts vote.caption_id 0 + vote.vote_value))
      init) c 0 =
    mapGetD init c 0 +
      ((votes.filter (fun v => v.caption_id == c)).map CaptionVote.vote_value).sum := by
  induction votes generalizing init with
  | nil => simp
  | cons v t ih =>
    rw [List.foldl_cons, ih]
    by_cases hc : v.caption_id = c
    · subst hc
      simp [mapGetD_mapSet_self]
      ring
    · simp [mapGetD_mapSet_ne _ _ _ _ _ (Ne.symm hc), hc]

/-! Claim theorems. -/

/-- C5: for every fetched list of images and captions, the client-side
join attaches to each image exactly the captions whose `image_id` equals
that image's `id`, kept in fetched order (the `filter`), the joined list
carries the fetched images themselves, and the result shown is a
permutation of the joined list ordered by caption count, most captions
first. -/
theorem fetchData_join_sorted (images : List Image) (captions : List Caption) :
    (∀ x ∈ sortByCaptionCount (combineImagesCaptions images captions),
      x.captions = captions.filter (fun caption => caption.image_id == x.image.id)) ∧
    (combineImagesCaptions images captions).map ImageWithCaptions.image = images ∧
    (sortByCaptionCount (combineImagesCaptions images captions)).Perm
      (combineImagesCaptions images captions) ∧
    (sortByCaptionCount (combineImagesCaptions images captions)).Pairwise
      (fun a b => b.captions.length ≤ a.captions.length) := by
  refine ⟨?_, ?_, sortByCaptionCount_perm _, sortByCaptionCount_sorted _⟩
  · intro x hx
    rw [sortByCaptionCount, List.mem_mergeSort, combineImagesCaptions] at hx
    obtain ⟨img, _, rfl⟩ := List.mem_map.mp hx
    rfl
  · simp [combineImagesCaptions, Function.comp_def]

/-- C5 witness: the join property evaluated on a concrete fetch result
of two images and three captions, at the entry of the second image. -/
theorem fetchData_join_sorted_witness :
    (⟨⟨"i2", "u2", none, none⟩,
      [⟨"c1", "i2", none, none, none, "p", none, none⟩,
       ⟨"c3", "i2", none, none, none, "p", none, none⟩]⟩ : ImageWithCaptions).captions =
      [⟨"c1", "i2", none, none, none, "p", none, none⟩,
       ⟨"c2", "i1", none, none, none, "p", none, none⟩,
       ⟨"c3", "i2", none, none, none, "p", none, none⟩].filter
        (fun caption => caption.image_id ==
          (⟨⟨"i2", "u2", none, none⟩,
            [⟨"c1", "i2", none, none, none, "p", none, none⟩,
             ⟨"c3", "i2", none, none, none, "p", none, none⟩]⟩ : ImageWithCaptions).image.id) :=
  (fetchData_join_sorted
    [⟨"i1", "u1", none, none⟩, ⟨"i2", "u2", none, none⟩]
    [⟨"c1", "i2", none, none, none, "p", none, none⟩,
     ⟨"c2", "i1", none, none, none, "p", none, none⟩,
     ⟨"c3", "i2", none, none, none, "p", none, none⟩]).1
    ⟨⟨"i2", "u2", none, none⟩,
      [⟨"c1", "i2", none, none, none, "p", none, none⟩,
       ⟨"c3", "i2", none, none, none, "p", none, none⟩]⟩
    (by simp [sortByCaptionCount, combineImagesCaptions])

/-- C6: the vote count aggregated by fetchData for a caption is the sum
of the `vote_value` fields of the fetched votes whose `caption_id` is
that caption, and `getVoteCount` yields 0 for a caption with no votes
(the sum over the empty filter). -/
theorem voteCount_is_sum_of_votes (votes : List CaptionVote) (c : String) :
    getVoteCount (computeVoteCounts votes) c =
      ((votes.filter (fun v => v.caption_id == c)).map CaptionVote.vote_value).sum := by
  have h := computeVoteCounts_go votes [] c
  simpa [getVoteCount, computeVoteCounts, mapGetD, mapGet] using h

/-- C7: the image query is limited to 20 rows, so the displayed
`imagesWithCaptions` list never holds more than 20 entries. -/
theorem fetchData_limit_twenty (dbImages : List Image) (dbCaptions : List Caption) :
    (fetchImagesWithCaptions dbImages dbCaptions).length ≤ 20 := by
  simp [fetchImagesWithCaptions, sortByCaptionCount, combineImagesCaptions, limitQuery]

/-- C1: for a logged-in user and a vote value in {+1, -1}, `handleVote`
issues exactly one backend request, chosen by the user's current recorded
vote for the caption: a delete of the (caption, user) row when the
recorded vote equals the clicked value, an update of `vote_value` when a
different vote is recorded, and an insert of a new row when no vote is
recorded. -/
theorem handleVote_three_way_branch (st : VoteAppState) (uid captionId : String)
    (voteValue : Int) (backendOk : Bool) (_hv : voteValue = 1 ∨ voteValue = -1) :
    (mapGet st.userVotes captionId = some voteValue →
      (handleVote st (some uid) captionId voteValue backendOk).actions =
        [VoteAction.deleteVote captionId uid]) ∧
    (∀ w, mapGet st.userVotes captionId = some w → w ≠ voteValue →
      (handleVote st (some uid) captionId voteValue backendOk).actions =
        [VoteAction.updateVote captionId uid voteValue]) ∧
    (mapGet st.userVotes captionId = none →
      (handleVote st (some uid) captionId voteValue backendOk).actions =
        [VoteAction.insertVote captionId uid voteValue]) := by
  refine ⟨fun h => ?_, fun w hw hne => ?_, fun h => ?_⟩
  · cases backendOk <;> simp [handleVote, h]
  · cases backendOk <;> simp [handleVote, hw, hne]
  · cases backendOk <;> simp [handleVote, h]

/-- C1 witness: with a recorded upvote on caption "c", clicking upvote
again issues the delete request. -/
theorem handleVote_three_way_branch_witness :
    ((1 : Int) = 1 ∨ (1 : Int) = -1) ∧
    (handleVote ⟨[], none, true, [("c", 1)], []⟩ (some "u") "c" 1 true).actions =
      [VoteAction.deleteVote "c" "u"] :=
  ⟨Or.inl rfl,
    (handleVote_three_way_branch ⟨[], none, true, [("c", 1)], []⟩ "u" "c" 1 true
      (Or.inl rfl)).1 rfl⟩

/-- C3: `userVotes` is keyed by caption id, so it records at most one
vote per caption for the current user; `handleVote` preserves this
key-uniqueness, and its insert request is issued only when no vote is
currently recorded for the caption. -/
theorem handleVote_at_most_one_vote (st : VoteAppState) (user : Option String)
    (captionId : String) (voteValue : Int) (backendOk : Bool)
    (h : (st.userVotes.map Prod.fst).Nodup) :
    ((handleVote st user captionId voteValue backendOk).state.userVotes.map
      Prod.fst).Nodup ∧
    (∀ uid, (handleVote st user captionId voteValue backendOk).actions =
        [VoteAction.insertVote captionId uid voteValue] →
      mapGet st.userVotes captionId = none) := by
  cases user with
  | none => simpa [handleVote] using h
  | some u2 =>
    cases hm : mapGet st.userVotes captionId with
    | none =>
      cases backendOk <;>
        simp [handleVote, hm, h, nodup_keys_mapSet _ _ _ h]
    | some w =>
      by_cases hw : w = voteValue <;> cases backendOk <;>
        simp [handleVote, hm, hw, h, nodup_keys_mapSet _ _ _ h,
          nodup_keys_mapDelete _ _ h]

/-- C3 witness: starting from a duplicate-free two-entry vote map, an
upvote on a fresh caption keeps the keys duplicate-free, and its insert
request implies no vote was recorded for that caption. -/
theorem handleVote_at_most_one_vote_witness :
    (([("a", (1 : Int)), ("b", -1)].map Prod.fst).Nodup) ∧
    (((handleVote ⟨[], none, true, [("a", 1), ("b", -1)], []⟩ (some "u") "c" 1
        true).state.userVotes.map Prod.fst).Nodup ∧
      (∀ uid, (handleVote ⟨[], none, true, [("a", 1), ("b", -1)], []⟩ (some "u") "c" 1
          true).actions = [VoteAction.insertVote "c" uid 1] →
        mapGet [("a", 1), ("b", -1)] "c" = none)) :=
  ⟨by decide,
    handleVote_at_most_one_vote ⟨[], none, true, [("a", 1), ("b", -1)], []⟩
      (some "u") "c" 1 true (by decide)⟩

/-- C4: when the single backend call issued by `handleVote` fails, the
local state is left exactly as it was, an alert is surfaced, and exactly
one request was issued (no retry). -/
theorem handleVote_error_leaves_state (st : VoteAppState) (uid captionId : String)
    (voteValue : Int) :
    (handleVote st (some uid) captionId voteValue false).state = st ∧
    (handleVote st (some uid) captionId voteValue false).alerted = true ∧
    (handleVote st (some uid) captionId voteValue false).actions.length = 1 := by
  cases hm : mapGet st.userVotes captionId with
  | none => simp [handleVote, hm]
  | some w => by_cases hw : w = voteValue <;> simp [handleVote, hm, hw]

/-- C9: `handleVote` (success or failure) never changes the `userVotes`
or `voteCounts` entry of any other caption, nor `imagesWithCaptions`,
`selectedImage` or `darkMode`; `toggleLike` never changes the membership
of any other caption id. -/
theorem handlers_frame :
    (∀ (st : VoteAppState) (user : Option String) (captionId other : String)
        (voteValue : Int) (backendOk : Bool), other ≠ captionId →
      mapGet (handleVote st user captionId voteValue backendOk).state.userVotes other =
          mapGet st.userVotes other ∧
        mapGet (handleVote st user captionId voteValue backendOk).state.voteCounts other =
          mapGet st.voteCounts other ∧
        (handleVote st user captionId voteValue backendOk).state.imagesWithCaptions =
          st.imagesWithCaptions ∧
        (handleVote st user captionId voteValue backendOk).state.selectedImage =
          st.selectedImage ∧
        (handleVote st user captionId voteValue backendOk).state.darkMode =
          st.darkMode) ∧
    (∀ (likedCaptions : List String) (captionId other : String), other ≠ captionId →
      setHas (toggleLike likedCaptions captionId).1 other =
        setHas likedCaptions other) := by
  constructor
  · intro st user captionId other voteValue backendOk hne
    cases user with
    | none => simp [handleVote]
    | some uid =>
      cases hm : mapGet st.userVotes captionId with
      | none =>
        cases backendOk <;>
          simp [handleVote, hm, mapGet_mapSet_ne _ _ _ _ hne]
      | some w =>
        by_cases hw : w = voteValue <;> cases backendOk <;>
          simp [handleVote, hm, hw, mapGet_mapSet_ne _ _ _ _ hne,
            mapGet_mapDelete_ne _ _ _ hne]
  · intro likedCaptions captionId other hne
    by_cases hx : setHas likedCaptions captionId = true <;>
      simp [toggleLike, hx, setHas_setDelete_ne _ _ _ hne,
        setHas_setAdd_ne _ _ _ hne]

/-- C9 witness: an upvote on caption "c" leaves the vote entry of
caption "d" and the unrelated state fields untouched. -/
theorem handlers_frame_witness :
    ("d" : String) ≠ "c" ∧
    (mapGet (handleVote ⟨[], none, true, [("d", 5)], [("d", 7)]⟩ (some "u") "c" 1
          true).state.userVotes "d" =
        mapGet [("d", 5)] "d" ∧
      mapGet (handleVote ⟨[], none, true, [("d", 5)], [("d", 7)]⟩ (some "u") "c" 1
          true).state.voteCounts "d" =
        mapGet [("d", 7)] "d" ∧
      (handleVote ⟨[], none, true, [("d", 5)], [("d", 7)]⟩ (some "u") "c" 1
          true).state.imagesWithCaptions = [] ∧
      (handleVote ⟨[], none, true, [("d", 5)], [("d", 7)]⟩ (some "u") "c" 1
          true).state.selectedImage = none ∧
      (handleVote ⟨[], none, true, [("d", 5)], [("d", 7)]⟩ (some "u") "c" 1
          true).state.darkMode = true) :=
  ⟨by decide,
    handlers_frame.1 ⟨[], none, true, [("d", 5)], [("d", 7)]⟩ (some "u") "c" "d" 1 true
      (by decide)⟩

/-- C2 counterexample: the double-toggle round trip fails for a starting
state that records a different vote.  With caption "c" holding the user's
downvote (recorded vote -1, count -1), clicking upvote (+1) twice with
both backend calls succeeding ends with no recorded vote and count 0: the
per-caption `userVotes` entry and `voteCounts` value do not return to
their starting values. -/
theorem vote_double_toggle_counterexample :
    ¬ (getUserVote (handleVote (handleVote
          ⟨[], none, true, [("c", -1)], [("c", -1)]⟩ (some "u") "c" 1 true).state
          (some "u") "c" 1 true).state.userVotes "c" =
        getUserVote (⟨[], none, true, [("c", -1)], [("c", -1)]⟩ :
          VoteAppState).userVotes "c" ∧
      getVoteCount (handleVote (handleVote
          ⟨[], none, true, [("c", -1)], [("c", -1)]⟩ (some "u") "c" 1 true).state
          (some "u") "c" 1 true).state.voteCounts "c" =
        getVoteCount (⟨[], none, true, [("c", -1)], [("c", -1)]⟩ :
          VoteAppState).voteCounts "c") := by
  decide

/-- C2 amended: when the user's recorded vote for the caption is absent
or equals the clicked value, toggling the same vote value twice (both
backend calls succeeding) returns the `userVotes` entry and the
`voteCounts` value of that caption to their original values (in the
absent case, back to the unvoted state); and `toggleLike` applied twice
with the same caption id returns `likedCaptions` to its original
membership. -/
theorem vote_double_toggle_restores (st : VoteAppState) (uid captionId : String)
    (voteValue : Int)
    (h : mapGet st.userVotes captionId = none ∨
      mapGet st.userVotes captionId = some voteValue) :
    (getUserVote (handleVote (handleVote st (some uid) captionId voteValue true).state
          (some uid) captionId voteValue true).state.userVotes captionId =
        getUserVote st.userVotes captionId ∧
      getVoteCount (handleVote (handleVote st (some uid) captionId voteValue true).state
          (some uid) captionId voteValue true).state.voteCounts captionId =
        getVoteCount st.voteCounts captionId) ∧
    (∀ (s : List String) (x y : String),
      setHas (toggleLike (toggleLike s x).1 x).1 y = setHas s y) := by
  constructor
  · rcases h with h | h
    · have h1 : handleVote st (some uid) captionId voteValue true =
          ⟨{ st with
              userVotes := mapSet st.userVotes captionId voteValue,
              voteCounts := mapSet st.voteCounts captionId
                (mapGetD st.voteCounts captionId 0 + voteValue) },
            [VoteAction.insertVote captionId uid voteValue], false⟩ := by
        simp [handleVote, h]
      rw [h1]
      have h2 := mapGet_mapSet_self st.userVotes captionId voteValue
      constructor
      · simp [handleVote, h2, getUserVote, mapGet_mapDelete_self, h]
      · simp [handleVote, h2, getVoteCount, mapGetD_mapSet_self]
    · have h1 : handleVote st (some uid) captionId voteValue true =
          ⟨{ st with
              userVotes := mapDelete st.userVotes captionId,
              voteCounts := mapSet st.voteCounts captionId
                (mapGetD st.voteCounts captionId 0 - voteValue) },
            [VoteAction.deleteVote captionId uid], false⟩ := by
        simp [handleVote, h]
      rw [h1]
      have h2 := mapGet_mapDelete_self st.userVotes captionId
      constructor
      · simp [handleVote, h2, getUserVote, mapGet_mapSet_self, h]
      · simp [handleVote, h2, getVoteCount, mapGetD_mapSet_self]
  · intro s x y
    by_cases hx : setHas s x = true
    · by_cases hy : y = x
      · subst hy
        simp [toggleLike, hx, setHas_setDelete_self, setHas_setAdd_self]
      · simp [toggleLike, hx, setHas_setDelete_self,
          setHas_setAdd_ne _ _ _ hy, setHas_setDelete_ne _ _ _ hy]
    · by_cases hy : y = x
      · subst hy
        simp [toggleLike, hx, setHas_setAdd_self, setHas_setDelete_self]
      · simp [toggleLike, hx, setHas_setAdd_self,
          setHas_setAdd_ne _ _ _ hy, setHas_setDelete_ne _ _ _ hy]

/-- C2 amended witness: from an unvoted state with count 3 on caption
"c", two successful upvote toggles restore the absent vote entry and the
count 3. -/
theorem vote_double_toggle_restores_witness :
    getUserVote (handleVote (handleVote
        ⟨[], none, true, [], [("c", 3)]⟩ (some "u") "c" 1 true).state
        (some "u") "c" 1 true).state.userVotes "c" =
      getUserVote ([] : List (String × Int)) "c" ∧
    getVoteCount (handleVote (handleVote
        ⟨[], none, true, [], [("c", 3)]⟩ (some "u") "c" 1 true).state
        (some "u") "c" 1 true).state.voteCounts "c" =
      getVoteCount [("c", 3)] "c" :=
  (vote_double_toggle_restores ⟨[], none, true, [], [("c", 3)]⟩ "u" "c" 1
    (Or.inl rfl)).1

/-- C8: `toggleLike` flips the membership of the clicked caption id in
`likedCaptions` (adds it when absent, removes it when present), and the
handler issues no backend request: the liked flag lives only in local
memory. -/
theorem toggleLike_local_toggle (s : List String) (captionId : String) :
    setHas (toggleLike s captionId).1 captionId = !(setHas s captionId) ∧
    (toggleLike s captionId).2 = [] := by
  refine ⟨?_, rfl⟩
  by_cases h : setHas s captionId = true
  · simp [toggleLike, h, setHas_setDelete_self]
  · simp [toggleLike, h, setHas_setAdd_self]

/-- C10: `getCaptionText` is total and returns the first of the fields
`text`, `caption_text`, `content` that is present and non-empty, or
"No text" when all three are absent or empty; in particular an empty
`text` falls through to the alternate fields. -/
theorem getCaptionText_first_nonempty (c : Caption) :
    getCaptionText c = captionTextSpec c := by
  rcases c with ⟨cid, iid, t, ct, co, pid, ca, cau⟩
  rcases t with _ | t <;> rcases ct with _ | ct <;> rcases co with _ | co <;>
    simp only [getCaptionText, jsOrString, captionTextSpec, firstPresentNonEmpty] <;>
    (try split_ifs) <;> rfl

end HumorProject
